import Mathlib

/-!
Verification of the update-check request engine (Omaha request action)
against its natural-language specification.

The repository ships the engine's unit tests
(`src/omaha_request_action_unittest.cc`); the engine implementation itself
(request composer, response parser, admission/scatter policy, driver) is
not part of the sources.  Following the spec, those components are
modelled here as executable Lean definitions; every definition of a
missing component carries a doc comment starting `Modelled from the
spec:`.  Definitions translated from the unit-test sources (response
builders, default parameters, concrete bodies) mirror the test code.
-/

namespace UpdateEngine

/-! ## Data model -/

/-- Request parameters, mirroring the `OmahaRequestParams` constructor
arguments and setters used by the unit tests
(`src/omaha_request_action_unittest.cc:43-59`, `358-363`). -/
structure OmahaRequestParams where
  os_platform : String
  os_version : String
  os_sp : String
  os_board : String
  app_id : String
  app_version : String
  app_lang : String
  app_track : String
  hardware_class : String
  bootid : String
  delta_okay : Bool
  interactive : Bool
  update_url : String
  update_disabled : Bool
  target_version_pref : String
  wall_clock_based_wait_enabled : Bool := false
  update_check_count_wait_enabled : Bool := false
  waiting_period_usec : Int := 0
  min_update_checks_needed : Int := 0
  max_update_checks_allowed : Int := 0
deriving Repr, DecidableEq

/-- Parsed response record, mirroring the `OmahaResponse` fields read by
the unit tests (`update_exists`, `display_version`, `payload_urls`,
`more_info_url`, `hash`, `size`, `needs_admin`, `prompt`, `deadline`)
plus the offer's `MaxDaysToScatter` used by the scatter policy. -/
structure OmahaResponse where
  update_exists : Bool := false
  display_version : String := ""
  payload_urls : List String := []
  more_info_url : String := ""
  hash : String := ""
  size : Int := 0
  needs_admin : Bool := false
  prompt : Bool := false
  deadline : String := ""
  max_days_to_scatter : Int := 0
deriving Repr, DecidableEq

/-- The persisted preference keys used by the engine
(spec section 3, PersistedKeys). -/
structure PrefsState where
  previous_version : Option String := none
  update_check_count : Option Int := none
  update_first_seen_at : Option Int := none
deriving Repr, DecidableEq

/-- Exit codes of the request action that the unit tests observe
(`kActionCodeSuccess`, `kActionCodeOmahaRequestXMLParseError`, ...).
An HTTP transport failure is `kActionCodeOmahaRequestHTTPResponseBase`
plus the clamped status, modelled as a constructor payload. -/
inductive ActionExitCode where
  | success
  | error
  | omahaRequestXMLParseError
  | omahaRequestEmptyResponseError
  | omahaResponseInvalid
  | omahaUpdateIgnoredPerPolicy
  | omahaUpdateDeferredPerPolicy
  | omahaRequestHTTPResponseBase (code : Nat)
deriving Repr, DecidableEq

/-- Classified parse failures of the response parser
(spec section 4.3: `EmptyResponse`, `XMLParseError`, `ResponseInvalid`). -/
inductive OmahaParseError where
  | emptyResponse
  | xmlParseError
  | responseInvalid
deriving Repr, DecidableEq

/-! ## XML text codec -/

/-- Hex digit character (upper case), for numeric character references. -/
def hexDigitChar (n : Nat) : Char :=
  if n < 10 then Char.ofNat (48 + n) else Char.ofNat (55 + n)

/-- Upper-case hexadecimal rendering of a positive number (fuel-driven). -/
def toHexAux : Nat → Nat → List Char
  | 0, _ => []
  | _ + 1, 0 => []
  | fuel + 1, n => toHexAux fuel (n / 16) ++ [hexDigitChar (n % 16)]

def toHex (n : Nat) : String := String.mk (toHexAux 16 n)

/-- Modelled from the spec: the XML text encoder (spec section 4.1).
`<` maps to `&lt;`, `>` to `&gt;`, `&` to `&amp;`; any other printable
7-bit ASCII code point is left unchanged; any other code point becomes a
numeric character reference `&#xHHHH;`. -/
def XmlEncodeChar (c : Char) : String :=
  if c = '<' then "&lt;"
  else if c = '>' then "&gt;"
  else if c = '&' then "&amp;"
  else if 32 ≤ c.toNat ∧ c.toNat ≤ 126 then String.mk [c]
  else "&#x" ++ toHex c.toNat ++ ";"

/-- Modelled from the spec: `XmlEncode` applies the character encoding to
every code point of the input (spec section 4.1). -/
def XmlEncode (s : String) : String :=
  String.join (s.data.map XmlEncodeChar)

/-- Parse a list of decimal digit characters into a number. -/
def digitsToNat (ds : List Char) : Option Nat :=
  ds.foldl
    (fun acc c =>
      match acc with
      | none => none
      | some n => if c.isDigit then some (n * 10 + (c.toNat - 48)) else none)
    (some 0)

/-- Parse a list of hexadecimal digit characters into a number. -/
def hexToNat (ds : List Char) : Option Nat :=
  ds.foldl
    (fun acc c =>
      match acc with
      | none => none
      | some n =>
        if c.isDigit then some (n * 16 + (c.toNat - 48))
        else if 65 ≤ c.toNat ∧ c.toNat ≤ 70 then some (n * 16 + (c.toNat - 55))
        else if 97 ≤ c.toNat ∧ c.toNat ≤ 102 then some (n * 16 + (c.toNat - 87))
        else none)
    (some 0)

/-- Parse a decimal integer with optional leading minus sign. -/
def ParseInt (s : String) : Option Int :=
  match s.data with
  | [] => none
  | '-' :: ds =>
    if ds = [] then none else (digitsToNat ds).map (fun n => -(n : Int))
  | ds => (digitsToNat ds).map Int.ofNat

/-- Decode one entity body (the text between `&` and `;`): the named
entities `lt`, `gt`, `amp`, `apos`, `quot`, and numeric references. -/
def decodeEntity (ent : List Char) : Option Char :=
  if ent = ['l', 't'] then some '<'
  else if ent = ['g', 't'] then some '>'
  else if ent = ['a', 'm', 'p'] then some '&'
  else if ent = ['a', 'p', 'o', 's'] then some (Char.ofNat 39)
  else if ent = ['q', 'u', 'o', 't'] then some '"'
  else
    match ent with
    | '#' :: 'x' :: hs =>
      if hs = [] then none else (hexToNat hs).map (fun n => Char.ofNat n)
    | '#' :: ds =>
      if ds = [] then none else (digitsToNat ds).map (fun n => Char.ofNat n)
    | _ => none

/-- Split an entity reference at the terminating `;`:
returns the entity body and the remainder. -/
def takeEntity : List Char → Option (List Char × List Char)
  | [] => none
  | ';' :: cs => some ([], cs)
  | c :: cs => (takeEntity cs).map (fun p => (c :: p.1, p.2))

/-- Modelled from the spec: the XML text decoder (spec section 4.1),
inverse of the encoder on named entities and numeric references; an
unknown entity is a parse error (`none`). -/
def XmlDecodeList : Nat → List Char → Option (List Char)
  | _, [] => some []
  | 0, _ => none
  | fuel + 1, '&' :: rest =>
    match takeEntity rest with
    | none => none
    | some (ent, rest2) =>
      match decodeEntity ent with
      | none => none
      | some c => (XmlDecodeList fuel rest2).map (fun l => c :: l)
  | fuel + 1, c :: rest => (XmlDecodeList fuel rest).map (fun l => c :: l)

def XmlDecode (s : String) : Option String :=
  (XmlDecodeList (s.length + 1) s.data).map String.mk

/-! ## XML document parser (DOM builder)

Modelled from the spec (section 4.3): "Build a DOM-like tree from the
bytes"; the engine uses only element names and attribute values, so the
tree keeps exactly those (text content is accepted and discarded). -/

/-- An XML element: name, attributes (raw, undecoded values), children. -/
inductive XmlElem where
  | mk (name : String) (attrs : List (String × String))
      (children : List XmlElem)
deriving Repr

def XmlElem.name : XmlElem → String
  | .mk n _ _ => n

def XmlElem.attrs : XmlElem → List (String × String)
  | .mk _ a _ => a

def XmlElem.children : XmlElem → List XmlElem
  | .mk _ _ c => c

def isNameChar (c : Char) : Bool :=
  c.isAlpha || c.isDigit || c = '_' || c = '-' || c = ':' || c = '.'

def isSpaceChar (c : Char) : Bool :=
  c = ' ' || c = '\n' || c = '\t' || c = '\r'

def skipWs : List Char → List Char
  | [] => []
  | c :: cs => if isSpaceChar c then skipWs cs else c :: cs

/-- Take a maximal run of name characters. -/
def takeName : List Char → List Char × List Char
  | [] => ([], [])
  | c :: cs =>
    if isNameChar c then
      let p := takeName cs
      (c :: p.1, p.2)
    else ([], c :: cs)

/-- Scan an attribute value up to the closing double quote. -/
def takeAttrValue : List Char → Option (List Char × List Char)
  | [] => none
  | '"' :: cs => some ([], cs)
  | c :: cs => (takeAttrValue cs).map (fun p => (c :: p.1, p.2))

/-- Parse a run of `name="value"` attributes (fuel-driven). -/
def parseAttrs : Nat → List Char → Option (List (String × String) × List Char)
  | 0, _ => none
  | fuel + 1, cs =>
    let cs1 := skipWs cs
    match cs1 with
    | [] => some ([], [])
    | c :: _ =>
      if isNameChar c then
        let p := takeName cs1
        match skipWs p.2 with
        | '=' :: cs2 =>
          match skipWs cs2 with
          | '"' :: cs3 =>
            match takeAttrValue cs3 with
            | none => none
            | some (v, cs4) =>
              match parseAttrs fuel cs4 with
              | none => none
              | some (rest, cs5) =>
                some ((String.mk p.1, String.mk v) :: rest, cs5)
          | _ => none
        | _ => none
      else some ([], cs1)

/-- Drop text content: characters up to the next `<` (or end). -/
def skipText : List Char → List Char
  | [] => []
  | '<' :: cs => '<' :: cs
  | _ :: cs => skipText cs

mutual

/-- Parse one element starting at `<name ...`; fuel-driven recursive
descent over a conservative XML subset (elements, double-quoted
attributes, self-closing tags, skipped text content). -/
def parseElement : Nat → List Char → Option (XmlElem × List Char)
  | 0, _ => none
  | fuel + 1, cs =>
    match cs with
    | '<' :: cs1 =>
      match takeName cs1 with
      | ([], _) => none
      | (n, cs2) =>
        match parseAttrs (fuel + 1) cs2 with
        | none => none
        | some (attrs, cs3) =>
          match skipWs cs3 with
          | '/' :: '>' :: cs4 => some (.mk (String.mk n) attrs [], cs4)
          | '>' :: cs4 =>
            match parseContent fuel cs4 with
            | none => none
            | some (kids, cs5) =>
              match cs5 with
              | '<' :: '/' :: cs6 =>
                match takeName cs6 with
                | (m, cs7) =>
                  if m = n then
                    match skipWs cs7 with
                    | '>' :: cs8 => some (.mk (String.mk n) attrs kids, cs8)
                    | _ => none
                  else none
              | _ => none
          | _ => none
    | _ => none

/-- Parse element content: a sequence of child elements with interleaved
text, stopping at the parent's closing tag. -/
def parseContent : Nat → List Char → Option (List XmlElem × List Char)
  | 0, _ => none
  | fuel + 1, cs =>
    let cs1 := skipText cs
    match cs1 with
    | '<' :: '/' :: rest => some ([], '<' :: '/' :: rest)
    | '<' :: rest =>
      match parseElement fuel ('<' :: rest) with
      | none => none
      | some (e, cs2) =>
        match parseContent fuel cs2 with
        | none => none
        | some (es, cs3) => some (e :: es, cs3)
    | _ => none

end

/-- Skip the `<?xml ... ?>` declaration when present. -/
def skipDeclAux : List Char → Option (List Char)
  | [] => none
  | '?' :: '>' :: cs => some cs
  | _ :: cs => skipDeclAux cs

def skipDecl (cs : List Char) : Option (List Char) :=
  match cs with
  | '<' :: '?' :: rest => skipDeclAux rest
  | _ => some cs

/-- Parse a whole document: optional declaration, one root element,
optional surrounding whitespace; anything else is not well-formed. -/
def ParseXml (s : String) : Option XmlElem :=
  match skipDecl (skipWs s.data) with
  | none => none
  | some cs =>
    let cs1 := skipWs cs
    match parseElement (2 * cs1.length + 2) cs1 with
    | none => none
    | some (e, rest) => if skipWs rest = [] then some e else none

/-! ## Response parser (tree walk) -/

def findChild (e : XmlElem) (n : String) : Option XmlElem :=
  e.children.find? (fun c => c.name == n)

def getAttr (e : XmlElem) (n : String) : Option String :=
  (e.attrs.find? (fun a => a.1 == n)).map (fun a => a.2)

/-- Look up an attribute, apply the XML text decoder to its value, and
default to `d` when absent; a decode failure is a `ResponseInvalid`. -/
def decodedAttr (e : XmlElem) (n d : String) :
    Except OmahaParseError String :=
  match getAttr e n with
  | none => .ok d
  | some v =>
    match XmlDecode v with
    | none => .error .responseInvalid
    | some w => .ok w

/-- Modelled from the spec: extraction of the offered update from an
`<updatecheck status="ok">` element (spec section 4.3): payload URLs from
`urls/url/@codebase` concatenated with the package file name,
`manifest/packages/package/@name` and `@size`, and the attributes of
`manifest/actions/action[@event="postinstall"]`; `MoreInfo`, `Prompt`,
`deadline` and `MaxDaysToScatter` are optional with defaults; missing
required nodes are `ResponseInvalid`. -/
def ParseOffer (uc : XmlElem) : Except OmahaParseError OmahaResponse := do
  let urls ← match findChild uc "urls" with
    | none => .error .responseInvalid
    | some u => .ok u
  let urlNodes := urls.children.filter (fun c => c.name == "url")
  let manifest ← match findChild uc "manifest" with
    | none => .error .responseInvalid
    | some m => .ok m
  let packages ← match findChild manifest "packages" with
    | none => .error .responseInvalid
    | some p => .ok p
  let pkg ← match findChild packages "package" with
    | none => .error .responseInvalid
    | some p => .ok p
  let actions ← match findChild manifest "actions" with
    | none => .error .responseInvalid
    | some a => .ok a
  let act ← match actions.children.find?
      (fun c => c.name == "action" && getAttr c "event" == some "postinstall") with
    | none => .error .responseInvalid
    | some a => .ok a
  let filename ← decodedAttr pkg "name" ""
  let codebases ← urlNodes.foldr
    (fun u acc => do
      let cb ← decodedAttr u "codebase" ""
      let rest ← acc
      pure (cb :: rest))
    (pure [])
  if codebases = [] then .error .responseInvalid else
  let sizeStr ← decodedAttr pkg "size" ""
  let display ← decodedAttr act "DisplayVersion" ""
  let moreInfo ← decodedAttr act "MoreInfo" ""
  let promptStr ← decodedAttr act "Prompt" "false"
  let needsAdminStr ← decodedAttr act "needsadmin" "false"
  let hashStr ← decodedAttr act "sha256" ""
  let deadlineStr ← decodedAttr act "deadline" ""
  let maxDaysStr ← decodedAttr act "MaxDaysToScatter" ""
  .ok
    { update_exists := true
      display_version := display
      payload_urls := codebases.map (fun cb => cb ++ filename)
      more_info_url := moreInfo
      hash := hashStr
      size := (ParseInt sizeStr).getD 0
      needs_admin := needsAdminStr == "true"
      prompt := promptStr == "true"
      deadline := deadlineStr
      max_days_to_scatter := (ParseInt maxDaysStr).getD 0 }

/-- Modelled from the spec: the response parser (spec section 4.3).
An empty body is `EmptyResponse`; a body that is not well-formed XML is
`XMLParseError`; a well-formed body missing the expected nodes, missing
the `status` attribute on `updatecheck`, or carrying a status other than
`"ok"` / `"noupdate"` is `ResponseInvalid`.  `"noupdate"` yields a
response with `update_exists = false`; `"ok"` yields the offered
update. -/
def ParseResponse (body : String) : Except OmahaParseError OmahaResponse :=
  if body = "" then .error .emptyResponse
  else
    match ParseXml body with
    | none => .error .xmlParseError
    | some root =>
      if root.name ≠ "response" then .error .responseInvalid
      else
        match findChild root "app" with
        | none => .error .responseInvalid
        | some app =>
          match findChild app "updatecheck" with
          | none => .error .responseInvalid
          | some uc =>
            match getAttr uc "status" with
            | none => .error .responseInvalid
            | some st =>
              if st = "noupdate" then .ok { update_exists := false }
              else if st = "ok" then ParseOffer uc
              else .error .responseInvalid

/-! ## Request composer -/

/-- Modelled from the spec: the request composer (spec sections 4.2 and
6, and the fragments asserted by `FormatUpdateCheckOutputTest` and
`XmlEncodeTest`).  Every user-supplied value passes through `XmlEncode`.
A ping-only request keeps the `ping` element but omits the `updatecheck`
element and the `previousversion` attribute, per the observable behavior
of `PingTest` honored by spec section 4.2's constraint note. -/
def ComposeRequest (params : OmahaRequestParams) (prev_version : String)
    (ping_only : Bool) : String :=
  "<?xml version=\"1.0\" encoding=\"UTF-8\"?>\n"
  ++ "<request protocol=\"3.0\" os_platform=\"" ++ XmlEncode params.os_platform
  ++ "\" os_version=\"" ++ XmlEncode params.os_version
  ++ "\" sp=\"" ++ XmlEncode params.os_sp
  ++ "\" hardware_class=\"" ++ XmlEncode params.hardware_class
  ++ "\" bootid=\"" ++ XmlEncode params.bootid
  ++ "\" installsource=\""
  ++ (if params.interactive then "ondemandupdate" else "scheduler")
  ++ "\">\n"
  ++ "    <app appid=\"" ++ XmlEncode params.app_id
  ++ "\" version=\"" ++ XmlEncode params.app_version
  ++ "\" track=\"" ++ XmlEncode params.app_track
  ++ "\" board=\"" ++ XmlEncode params.os_board
  ++ "\" delta_okay=\"" ++ (if params.delta_okay then "true" else "false")
  ++ "\" lang=\"" ++ XmlEncode params.app_lang ++ "\""
  ++ (if ping_only then ""
      else " previousversion=\"" ++ XmlEncode prev_version ++ "\"")
  ++ ">\n"
  ++ "        <ping active=\"1\"></ping>\n"
  ++ (if ping_only then ""
      else "        <updatecheck targetversionprefix=\""
        ++ XmlEncode params.target_version_pref ++ "\"></updatecheck>\n")
  ++ "    </app>\n</request>\n"

/-! ## Admission / scatter policy -/

inductive WallClockWaitResult where
  | notSatisfied
  | doneButUpdateCheckWaitRequired
  | doneAndUpdateCheckWaitNotRequired
deriving Repr, DecidableEq

def microsecondsPerDay : Int := 86400000000

/-- Modelled from the spec: read `update_first_seen_at`; when absent,
persist the current wall-clock time (spec section 4.4). -/
def LoadOrPersistUpdateFirstSeenAt (prefs : PrefsState) (now : Int) :
    Int × PrefsState :=
  match prefs.update_first_seen_at with
  | some t => (t, prefs)
  | none => (now, { prefs with update_first_seen_at := some now })

/-- Modelled from the spec: the wall-clock wait (spec section 4.4).
`MaxDaysToScatter = 0` disables scattering entirely — the offer is
surfaced without consulting the update-check-count wait, as pinned by
`ZeroMaxDaysToScatterCausesNoScattering` (which enables the counter wait
with an absent counter and still expects `Success`).  Otherwise the
effective wait is `min(waiting_period, MaxDaysToScatter days)`; a device
that has waited less is deferred; one that has waited enough proceeds to
the counter wait exactly when that wait is enabled. -/
def IsWallClockBasedWaitingSatisfied (params : OmahaRequestParams)
    (resp : OmahaResponse) (prefs : PrefsState) (now : Int) :
    WallClockWaitResult × PrefsState :=
  let p := LoadOrPersistUpdateFirstSeenAt prefs now
  let elapsed := now - p.1
  let result :=
    if resp.max_days_to_scatter = 0 then
      WallClockWaitResult.doneAndUpdateCheckWaitNotRequired
    else
      let scatter_limit :=
        min params.waiting_period_usec
          (resp.max_days_to_scatter * microsecondsPerDay)
      if elapsed < scatter_limit then WallClockWaitResult.notSatisfied
      else if params.update_check_count_wait_enabled then
        WallClockWaitResult.doneButUpdateCheckWaitRequired
      else WallClockWaitResult.doneAndUpdateCheckWaitNotRequired
  (result, p.2)

/-- Modelled from the spec: the update-check-count wait (spec section
4.4).  An absent counter draws `rand_val` (the injected uniform value in
`[min_update_checks_needed, max_update_checks_allowed]`), persists it,
and is not yet satisfied; a zero counter is satisfied; a positive counter
is not satisfied and is not decremented here. -/
def IsUpdateCheckCountBasedWaitingSatisfied (prefs : PrefsState)
    (rand_val : Int) : Bool × PrefsState :=
  match prefs.update_check_count with
  | none => (false, { prefs with update_check_count := some rand_val })
  | some k => (k == 0, prefs)

/-- Modelled from the spec: whether a valid offer is deferred (spec
section 4.4).  With the wall-clock wait disabled no scattering happens at
all (pinned by `NoWallClockBasedWaitCausesNoScattering`); otherwise the
wall-clock wait runs first and the counter wait only when the wall-clock
wait requires it. -/
def ShouldDeferDownload (params : OmahaRequestParams) (resp : OmahaResponse)
    (prefs : PrefsState) (now rand_val : Int) : Bool × PrefsState :=
  if !params.wall_clock_based_wait_enabled then (false, prefs)
  else
    match IsWallClockBasedWaitingSatisfied params resp prefs now with
    | (.notSatisfied, p) => (true, p)
    | (.doneButUpdateCheckWaitRequired, p) =>
      let q := IsUpdateCheckCountBasedWaitingSatisfied p rand_val
      (!q.1, q.2)
    | (.doneAndUpdateCheckWaitNotRequired, p) => (false, p)

/-! ## Request action driver -/

/-- The observable outcome of one update-check run: exit code, the object
handed to the downstream stage (when any), the preferences afterwards,
and the posted request body. -/
structure DriverResult where
  code : ActionExitCode
  output : Option OmahaResponse
  prefs : PrefsState
  post_data : String
deriving Repr, DecidableEq

/-- Modelled from the spec: the request action driver (spec sections 4.5
and 2).  Compose the request (persisting `previous_version` when the
`updatecheck` element is emitted); on HTTP transport failure with status
`s` exit with `HTTPResponseBase + clamp(s, 0, 999)`; otherwise parse the
body; a ping-only run ignores the parsed offer; a `noupdate` reply
surfaces with `Success`; `update_disabled` yields
`UpdateIgnoredPerPolicy` before the scatter policy; otherwise the scatter
policy decides between `UpdateDeferredPerPolicy` and surfacing the offer.
A response object reaches the downstream stage exactly on `Success`. -/
def PerformUpdateCheck (params : OmahaRequestParams) (ping_only : Bool)
    (prefs : PrefsState) (now rand_val : Int)
    (fail_http_code : Option Nat) (http_response : String) : DriverResult :=
  let post := ComposeRequest params (prefs.previous_version.getD "") ping_only
  let prefs1 :=
    if ping_only then prefs
    else { prefs with previous_version := some params.app_version }
  match fail_http_code with
  | some s => ⟨.omahaRequestHTTPResponseBase (min s 999), none, prefs1, post⟩
  | none =>
    match ParseResponse http_response with
    | .error .emptyResponse =>
      ⟨.omahaRequestEmptyResponseError, none, prefs1, post⟩
    | .error .xmlParseError =>
      ⟨.omahaRequestXMLParseError, none, prefs1, post⟩
    | .error .responseInvalid =>
      ⟨.omahaResponseInvalid, none, prefs1, post⟩
    | .ok resp =>
      if ping_only then
        ⟨.success, some { resp with update_exists := false }, prefs1, post⟩
      else if !resp.update_exists then ⟨.success, some resp, prefs1, post⟩
      else if params.update_disabled then
        ⟨.omahaUpdateIgnoredPerPolicy, none, prefs1, post⟩
      else
        let d := ShouldDeferDownload params resp prefs1 now rand_val
        if d.1 then ⟨.omahaUpdateDeferredPerPolicy, none, d.2, post⟩
        else ⟨.success, some resp, d.2, post⟩

/-! ## Substring search (for wire-format assertions) -/

def listPrefixOf : List Char → List Char → Bool
  | [], _ => true
  | _ :: _, [] => false
  | a :: as, b :: bs => a == b && listPrefixOf as bs

def strContainsAux (needle : List Char) : List Char → Bool
  | [] => listPrefixOf needle []
  | c :: cs => listPrefixOf needle (c :: cs) || strContainsAux needle cs

/-- `strContains hay needle`: `needle` occurs as a contiguous substring
of `hay`. -/
def strContains (hay needle : String) : Bool :=
  strContainsAux needle.data hay.data

/-! ## Concrete inputs from the unit tests -/

/-- Modelled from the spec: the app identifier constant
`OmahaRequestParams::kAppId` (declared outside the sources; its value is
immaterial to every claim). -/
def kAppId : String := "\x7b87efface-864d-49a5-9bb3-4b050a7c227a\x7d"

/-- Modelled from the spec: `OmahaRequestParams::kOsPlatform` (declared
outside the sources; value immaterial). -/
def kOsPlatform : String := "Chrome OS"

/-- Modelled from the spec: `OmahaRequestParams::kOsVersion` (declared
outside the sources; value immaterial). -/
def kOsVersion : String := "Indy"

/-- The default test parameters
(`src/omaha_request_action_unittest.cc:43-59`). -/
def kDefaultTestParams : OmahaRequestParams :=
  { os_platform := kOsPlatform
    os_version := kOsVersion
    os_sp := "service_pack"
    os_board := "x86-generic"
    app_id := kAppId
    app_version := "0.1.0.0"
    app_lang := "en-US"
    app_track := "unittest"
    hardware_class := "OEM MODEL 09235 7471"
    bootid := "\x7b8DA4B84F-2864-447D-84B7-C2D9B72924E7\x7d"
    delta_okay := false
    interactive := false
    update_url := "http://url"
    update_disabled := false
    target_version_pref := "" }

/-- The `noupdate` reply builder
(`src/omaha_request_action_unittest.cc:61-67`). -/
def GetNoUpdateResponse (app_id : String) : String :=
  "<?xml version=\"1.0\" encoding=\"UTF-8\"?><response protocol=\"3.0\">"
  ++ "<daystart elapsed_seconds=\"100\"/>"
  ++ "<app appid=\"" ++ app_id ++ "\" status=\"ok\"><ping "
  ++ "status=\"ok\"/><updatecheck status=\"noupdate\"/></app></response>"

/-- The update reply builder
(`src/omaha_request_action_unittest.cc:69-103`). -/
def GetUpdateResponse2 (app_id display_version more_info_url prompt codebase
    filename hashv needsadmin size deadline max_days_to_scatter : String) :
    String :=
  "<?xml version=\"1.0\" encoding=\"UTF-8\"?><response "
  ++ "protocol=\"3.0\">"
  ++ "<daystart elapsed_seconds=\"100\"/>"
  ++ "<app appid=\"" ++ app_id ++ "\" status=\"ok\">"
  ++ "<ping status=\"ok\"/><updatecheck status=\"ok\">"
  ++ "<urls><url codebase=\"" ++ codebase ++ "\"/></urls>"
  ++ "<manifest version=\"" ++ display_version ++ "\">"
  ++ "<packages><package hash=\"not-used\" name=\"" ++ filename ++ "\" "
  ++ "size=\"" ++ size ++ "\"/></packages>"
  ++ "<actions><action event=\"postinstall\" "
  ++ "DisplayVersion=\"" ++ display_version ++ "\" "
  ++ "ChromeOSVersion=\"" ++ display_version ++ "\" "
  ++ "MoreInfo=\"" ++ more_info_url ++ "\" Prompt=\"" ++ prompt ++ "\" "
  ++ "IsDelta=\"true\" "
  ++ "IsDeltaPayload=\"true\" "
  ++ "MaxDaysToScatter=\"" ++ max_days_to_scatter ++ "\" "
  ++ "sha256=\"" ++ hashv ++ "\" "
  ++ "needsadmin=\"" ++ needsadmin ++ "\" "
  ++ (if deadline = "" then "" else ("deadline=\"" ++ deadline ++ "\" "))
  ++ "/></actions></manifest></updatecheck></app></response>"

/-- `GetUpdateResponse` fixes `MaxDaysToScatter = "7"`
(`src/omaha_request_action_unittest.cc:105-126`). -/
def GetUpdateResponse (app_id display_version more_info_url prompt codebase
    filename hashv needsadmin size deadline : String) : String :=
  GetUpdateResponse2 app_id display_version more_info_url prompt codebase
    filename hashv needsadmin size deadline "7"

/-- The valid-offer body used by the scattering tests
(`src/omaha_request_action_unittest.cc:377-387` and later). -/
def kScatterBody : String :=
  GetUpdateResponse2 kAppId "1.2.3.4" "http://more/info" "true"
    "http://code/base/" "file.signed" "HASH1234=" "false" "123" "" "7"

/-- The same offer with `MaxDaysToScatter = "0"`
(`src/omaha_request_action_unittest.cc:459-469`). -/
def kZeroMaxDaysBody : String :=
  GetUpdateResponse2 kAppId "1.2.3.4" "http://more/info" "true"
    "http://code/base/" "file.signed" "HASH1234=" "false" "123" "" "0"

/-- The response the parser extracts from `kScatterBody`. -/
def kScatterResp : OmahaResponse :=
  { update_exists := true
    display_version := "1.2.3.4"
    payload_urls := ["http://code/base/file.signed"]
    more_info_url := "http://more/info"
    hash := "HASH1234="
    size := 123
    needs_admin := false
    prompt := true
    deadline := ""
    max_days_to_scatter := 7 }

/-- Empty preferences store. -/
def kEmptyPrefs : PrefsState := {}

/-- Parameters of `WallClockBasedWaitAloneCausesScattering`
(`src/omaha_request_action_unittest.cc:358-363`): wall-clock wait
enabled with a 2-day waiting period, counter wait disabled. -/
def kWallClockOnlyParams : OmahaRequestParams :=
  { kDefaultTestParams with
    wall_clock_based_wait_enabled := true
    update_check_count_wait_enabled := false
    waiting_period_usec := 2 * microsecondsPerDay }

/-- Parameters of the first-seen-at tests
(`src/omaha_request_action_unittest.cc:1226-1229`): wall-clock wait
enabled with a 1-day waiting period, counter wait disabled. -/
def kFirstSeenParams : OmahaRequestParams :=
  { kDefaultTestParams with
    wall_clock_based_wait_enabled := true
    update_check_count_wait_enabled := false
    waiting_period_usec := microsecondsPerDay }

/-- Parameters of the update-check-count tests
(`src/omaha_request_action_unittest.cc:525-532`): wall-clock wait enabled
with a zero waiting period, counter wait enabled on `[1, 8]`. -/
def kCountWaitParams : OmahaRequestParams :=
  { kDefaultTestParams with
    wall_clock_based_wait_enabled := true
    update_check_count_wait_enabled := true
    waiting_period_usec := 0
    min_update_checks_needed := 1
    max_update_checks_allowed := 8 }

/-- Parameters of `ZeroMaxDaysToScatterCausesNoScattering`
(`src/omaha_request_action_unittest.cc:439-445`): both waits enabled,
2-day waiting period, counter range `[1, 8]`. -/
def kZeroScatterParams : OmahaRequestParams :=
  { kDefaultTestParams with
    wall_clock_based_wait_enabled := true
    update_check_count_wait_enabled := true
    waiting_period_usec := 2 * microsecondsPerDay
    min_update_checks_needed := 1
    max_update_checks_allowed := 8 }

end UpdateEngine

namespace UpdateEngine

/-- The well-formed body with `updatecheck` missing its `status` attribute
(`src/omaha_request_action_unittest.cc:675-679`). -/
def kMissingStatusBody : String :=
  "<?xml version=\"1.0\" encoding=\"UTF-8\"?><response protocol=\"3.0\">"
  ++ "<daystart elapsed_seconds=\"100\"/>"
  ++ "<app appid=\"foo\" status=\"ok\">"
  ++ "<ping status=\"ok\"/>"
  ++ "<updatecheck/></app></response>"

/-- The well-formed body whose `updatecheck` carries an unknown status
(`src/omaha_request_action_unittest.cc:693-697`). -/
def kInvalidStatusBody : String :=
  "<?xml version=\"1.0\" encoding=\"UTF-8\"?><response protocol=\"3.0\">"
  ++ "<daystart elapsed_seconds=\"100\"/>"
  ++ "<app appid=\"foo\" status=\"ok\">"
  ++ "<ping status=\"ok\"/>"
  ++ "<updatecheck status=\"InvalidStatusTest\"/></app></response>"

/-- The well-formed body with no `updatecheck` node at all
(`src/omaha_request_action_unittest.cc:711-715`). -/
def kMissingNodesetBody : String :=
  "<?xml version=\"1.0\" encoding=\"UTF-8\"?><response protocol=\"3.0\">"
  ++ "<daystart elapsed_seconds=\"100\"/>"
  ++ "<app appid=\"foo\" status=\"ok\">"
  ++ "<ping status=\"ok\"/>"
  ++ "</app></response>"

/-- The body of `ParseIntTest` whose `size` exceeds 32 bits
(`src/omaha_request_action_unittest.cc:886-896`). -/
def kBigSizeBody : String :=
  GetUpdateResponse kAppId "1.2.3.4" "theurl" "true" "thecodebase/"
    "file.signed" "HASH1234=" "false" "123123123123123" "deadline"

/-- The response the parser extracts from `kBigSizeBody`. -/
def kBigSizeResp : OmahaResponse :=
  { update_exists := true
    display_version := "1.2.3.4"
    payload_urls := ["thecodebase/file.signed"]
    more_info_url := "theurl"
    hash := "HASH1234="
    size := 123123123123123
    needs_admin := false
    prompt := true
    deadline := "deadline"
    max_days_to_scatter := 7 }

/-- The response the parser extracts from `kZeroMaxDaysBody`. -/
def kZeroMaxDaysResp : OmahaResponse :=
  { kScatterResp with max_days_to_scatter := 0 }

/-! ## Shared evaluation lemmas -/

set_option maxRecDepth 8000

theorem parse_scatterBody : ParseResponse kScatterBody = .ok kScatterResp := by
  rfl

theorem parse_zeroMaxDaysBody :
    ParseResponse kZeroMaxDaysBody = .ok kZeroMaxDaysResp := by
  rfl

theorem parse_noUpdateBody :
    ParseResponse (GetNoUpdateResponse kAppId) = .ok { update_exists := false } := by
  rfl

/-! ## The claims -/

/-- C6: the response parser classifies malformed input: an empty body is
`EmptyResponse`; a body that is not well-formed XML (`"invalid xml>"`) is
`XMLParseError`; a well-formed body whose `updatecheck` lacks a `status`
attribute, or carries a status other than `"ok"`/`"noupdate"`, or lacks
the `updatecheck` node entirely, is `ResponseInvalid`; in every such case
the driver exits with the corresponding code and hands no update
downstream. -/
theorem C6_malformed_input_classification :
    ParseResponse "" = .error .emptyResponse
    ∧ ParseResponse "invalid xml>" = .error .xmlParseError
    ∧ ParseResponse kMissingStatusBody = .error .responseInvalid
    ∧ ParseResponse kInvalidStatusBody = .error .responseInvalid
    ∧ ParseResponse kMissingNodesetBody = .error .responseInvalid
    ∧ (PerformUpdateCheck kDefaultTestParams false kEmptyPrefs 0 0 none "").code
        = .omahaRequestEmptyResponseError
    ∧ (PerformUpdateCheck kDefaultTestParams false kEmptyPrefs 0 0 none "").output
        = none
    ∧ (PerformUpdateCheck kDefaultTestParams false kEmptyPrefs 0 0 none "invalid xml>").code
        = .omahaRequestXMLParseError
    ∧ (PerformUpdateCheck kDefaultTestParams false kEmptyPrefs 0 0 none "invalid xml>").output
        = none
    ∧ (PerformUpdateCheck kDefaultTestParams false kEmptyPrefs 0 0 none kMissingStatusBody).code
        = .omahaResponseInvalid
    ∧ (PerformUpdateCheck kDefaultTestParams false kEmptyPrefs 0 0 none kMissingStatusBody).output
        = none
    ∧ (PerformUpdateCheck kDefaultTestParams false kEmptyPrefs 0 0 none kInvalidStatusBody).code
        = .omahaResponseInvalid
    ∧ (PerformUpdateCheck kDefaultTestParams false kEmptyPrefs 0 0 none kInvalidStatusBody).output
        = none
    ∧ (PerformUpdateCheck kDefaultTestParams false kEmptyPrefs 0 0 none kMissingNodesetBody).code
        = .omahaResponseInvalid
    ∧ (PerformUpdateCheck kDefaultTestParams false kEmptyPrefs 0 0 none kMissingNodesetBody).output
        = none := by
  refine ⟨?_, ?_, ?_, ?_, ?_, ?_, ?_, ?_, ?_, ?_, ?_, ?_, ?_, ?_, ?_⟩ <;> rfl

/-- C8: on HTTP transport failure with numeric status `s` the action
exits with `HTTPResponseBase + clamp(s, 0, 999)` and hands nothing
downstream; in particular status 501 yields `HTTPResponseBase + 501` and
status 1500 yields `HTTPResponseBase + 999`. -/
theorem C8_http_failure_mapping :
    (∀ (s : Nat) (params : OmahaRequestParams) (ping_only : Bool)
        (prefs : PrefsState) (now rand_val : Int) (body : String),
      (PerformUpdateCheck params ping_only prefs now rand_val (some s) body).code
          = .omahaRequestHTTPResponseBase (min s 999)
        ∧ (PerformUpdateCheck params ping_only prefs now rand_val (some s) body).output
          = none)
    ∧ (PerformUpdateCheck kDefaultTestParams false kEmptyPrefs 0 0 (some 501) "").code
        = .omahaRequestHTTPResponseBase 501
    ∧ (PerformUpdateCheck kDefaultTestParams false kEmptyPrefs 0 0 (some 1500) "").code
        = .omahaRequestHTTPResponseBase 999 := by
  refine ⟨fun s params ping_only prefs now rand_val body => ⟨?_, ?_⟩, ?_, ?_⟩ <;> rfl

/-- C9: the package `size` attribute is parsed as a signed 64-bit
integer: the response whose `size` is `"123123123123123"` (exceeding 32
bits) parses with outcome `Success` and the offered update's size equals
123123123123123. -/
theorem C9_size_parses_as_int64 :
    (PerformUpdateCheck kDefaultTestParams false kEmptyPrefs 0 0 none kBigSizeBody).code
        = .success
    ∧ (PerformUpdateCheck kDefaultTestParams false kEmptyPrefs 0 0 none kBigSizeBody).output
        = some kBigSizeResp
    ∧ kBigSizeResp.size = 123123123123123 := by
  refine ⟨rfl, rfl, rfl⟩


/-- C10: a response object is handed to the downstream stage exactly when
the action's exit code is `Success` — including `noupdate` replies and
ping-only runs, which surface an object with `update_exists = false` —
and on every non-`Success` outcome nothing reaches the downstream stage
(shown concretely for a policy deferral as well). -/
theorem C10_downstream_iff_success :
    (∀ (params : OmahaRequestParams) (ping_only : Bool) (prefs : PrefsState)
        (now rand_val : Int) (fail : Option Nat) (body : String),
      (PerformUpdateCheck params ping_only prefs now rand_val fail body).output.isSome
          = true
        ↔ (PerformUpdateCheck params ping_only prefs now rand_val fail body).code
          = .success)
    ∧ (PerformUpdateCheck kDefaultTestParams false kEmptyPrefs 0 0 none
          (GetNoUpdateResponse kAppId)).code = .success
    ∧ (PerformUpdateCheck kDefaultTestParams false kEmptyPrefs 0 0 none
          (GetNoUpdateResponse kAppId)).output = some { update_exists := false }
    ∧ (PerformUpdateCheck kDefaultTestParams true kEmptyPrefs 0 0 none
          (GetNoUpdateResponse kAppId)).code = .success
    ∧ (PerformUpdateCheck kDefaultTestParams true kEmptyPrefs 0 0 none
          (GetNoUpdateResponse kAppId)).output = some { update_exists := false }
    ∧ (PerformUpdateCheck kWallClockOnlyParams false kEmptyPrefs 1000 0 none
          kScatterBody).output = none := by
  refine ⟨?_, rfl, rfl, rfl, rfl, rfl⟩
  intro params ping_only prefs now rand_val fail body
  unfold PerformUpdateCheck
  cases fail with
  | some s => simp
  | none =>
    cases h : ParseResponse body with
    | error e => cases e <;> simp [h]
    | ok resp =>
      cases ping_only with
      | true => simp [h]
      | false =>
        by_cases hu : resp.update_exists <;> by_cases hd : params.update_disabled <;>
          simp [h, hu, hd] <;> (try (split <;> simp))


/-- The parameters of `XmlEncodeTest` carrying XML metacharacters
(`src/omaha_request_action_unittest.cc:817-832`). -/
def kEncodeTestParams : OmahaRequestParams :=
  { os_platform := kOsPlatform
    os_version := kOsVersion
    os_sp := "testtheservice_pack>"
    os_board := "x86 generic<id"
    app_id := kAppId
    app_version := "0.1.0.0"
    app_lang := "en-US"
    app_track := "unittest_track&lt;"
    hardware_class := "<OEM MODEL>"
    bootid := "\x7b8DA4B84F-2864-447D-84B7-C2D9B72924E7\x7d"
    delta_okay := false
    interactive := false
    update_url := "http://url"
    update_disabled := false
    target_version_pref := "" }

/-- C1 counterexample: the body of a `ping_only` request is NOT identical
to that of a normal update-check request — it contains no `updatecheck`
element at all, so the claim fails on the composed wire bytes (the run
mirrors `PingTest`, `src/omaha_request_action_unittest.cc:1118-1143`,
which asserts exactly this absence). -/
theorem C1_counterexample :
    strContains
        (PerformUpdateCheck kDefaultTestParams true kEmptyPrefs 0 0 none
          (GetNoUpdateResponse kAppId)).post_data "updatecheck" = false
    ∧ (PerformUpdateCheck kDefaultTestParams true kEmptyPrefs 0 0 none
          (GetNoUpdateResponse kAppId)).post_data
        ≠ (PerformUpdateCheck kDefaultTestParams false kEmptyPrefs 0 0 none
          (GetNoUpdateResponse kAppId)).post_data := by
  exact ⟨rfl, by decide⟩

/-- C1 (amended): a request composed with `ping_only = true` still
contains the `ping` element but omits the `updatecheck` element and the
`previousversion` attribute, while the normal update-check request
contains all three. -/
theorem C1_ping_only_omits_updatecheck :
    strContains (ComposeRequest kDefaultTestParams "" true)
        "<ping active=\"1\"></ping>" = true
    ∧ strContains (ComposeRequest kDefaultTestParams "" true) "updatecheck" = false
    ∧ strContains (ComposeRequest kDefaultTestParams "" true) "previousversion"
        = false
    ∧ strContains (ComposeRequest kDefaultTestParams "" false)
        "<ping active=\"1\"></ping>" = true
    ∧ strContains (ComposeRequest kDefaultTestParams "" false) "updatecheck" = true
    ∧ strContains (ComposeRequest kDefaultTestParams "" false) "previousversion"
        = true
    ∧ (PerformUpdateCheck kDefaultTestParams true kEmptyPrefs 0 0 none
          (GetNoUpdateResponse kAppId)).post_data
        = ComposeRequest kDefaultTestParams "" true := by
  refine ⟨?_, ?_, ?_, ?_, ?_, ?_, ?_⟩ <;> rfl

/-- C7: `XmlEncode` maps `<` to `&lt;`, `>` to `&gt;`, `&` to `&amp;`,
leaves every other printable 7-bit ASCII code point unchanged, renders
other code points as numeric character references (`"foo-Ω"` becomes
`"foo-&#x3A9;"`; already-escaped input is re-escaped), and every
user-supplied parameter passes through it before insertion into the
request body, so raw metacharacter forms are never substrings of the
composed body. -/
theorem C7_xml_encoding :
    XmlEncode "ab" = "ab"
    ∧ XmlEncode "a<b" = "a&lt;b"
    ∧ XmlEncode "foo-Ω" = "foo-&#x3A9;"
    ∧ XmlEncode "<&>" = "&lt;&amp;&gt;"
    ∧ XmlEncode "&lt;" = "&amp;lt;"
    ∧ XmlEncode "&lt;&amp;&gt;" = "&amp;lt;&amp;amp;&amp;gt;"
    ∧ (∀ c : Char, 32 ≤ c.toNat → c.toNat ≤ 126 → c ≠ '<' → c ≠ '>' →
        c ≠ '&' → XmlEncode (String.mk [c]) = String.mk [c])
    ∧ strContains (PerformUpdateCheck kEncodeTestParams false kEmptyPrefs 0 0 none
          "invalid xml>").post_data "testtheservice_pack&gt;" = true
    ∧ strContains (PerformUpdateCheck kEncodeTestParams false kEmptyPrefs 0 0 none
          "invalid xml>").post_data "testtheservice_pack>" = false
    ∧ strContains (PerformUpdateCheck kEncodeTestParams false kEmptyPrefs 0 0 none
          "invalid xml>").post_data "x86 generic&lt;id" = true
    ∧ strContains (PerformUpdateCheck kEncodeTestParams false kEmptyPrefs 0 0 none
          "invalid xml>").post_data "x86 generic<id" = false
    ∧ strContains (PerformUpdateCheck kEncodeTestParams false kEmptyPrefs 0 0 none
          "invalid xml>").post_data "unittest_track&amp;lt;" = true
    ∧ strContains (PerformUpdateCheck kEncodeTestParams false kEmptyPrefs 0 0 none
          "invalid xml>").post_data "unittest_track&lt;" = false
    ∧ strContains (PerformUpdateCheck kEncodeTestParams false kEmptyPrefs 0 0 none
          "invalid xml>").post_data "&lt;OEM MODEL&gt;" = true
    ∧ strContains (PerformUpdateCheck kEncodeTestParams false kEmptyPrefs 0 0 none
          "invalid xml>").post_data "<OEM MODEL>" = false := by
  refine ⟨rfl, rfl, rfl, rfl, rfl, rfl, ?_, rfl, rfl, rfl, rfl, rfl, rfl, rfl, rfl⟩
  intro c h1 h2 h3 h4 h5
  have hc : XmlEncodeChar c = String.mk [c] := by
    unfold XmlEncodeChar
    rw [if_neg h3, if_neg h4, if_neg h5, if_pos (And.intro h1 h2)]
  show String.join [XmlEncodeChar c] = String.mk [c]
  rw [hc]
  rfl

/-- C7 witness: the universal printable-ASCII clause instantiated at the
character `Z`. -/
theorem C7_xml_encoding_witness :
    XmlEncode (String.mk ['Z']) = String.mk ['Z'] :=
  C7_xml_encoding.2.2.2.2.2.2.1 'Z' (by decide) (by decide) (by decide)
    (by decide) (by decide)


/-- The default parameters with `update_disabled` set, as in
`ValidUpdateBlockedByPolicyTest`
(`src/omaha_request_action_unittest.cc:319-320`). -/
def kDisabledParams : OmahaRequestParams :=
  { kDefaultTestParams with update_disabled := true }

/-- C4 counterexample: with `update_disabled = true` and a valid offer
the outcome is `UpdateIgnoredPerPolicy` and nothing is surfaced, but the
engine DOES write a preference key during the request: the composer
persists `previous_version` (exactly what
`FormatUpdateDisabledOutputTest` expects with
`SetString(kPrefsPreviousVersion, _)).Times(1)`,
`src/omaha_request_action_unittest.cc:938`), so the claim that no
preference key is written at any point fails. -/
theorem C4_counterexample :
    (PerformUpdateCheck kDisabledParams false kEmptyPrefs 1000 0 none kScatterBody).code
        = .omahaUpdateIgnoredPerPolicy
    ∧ (PerformUpdateCheck kDisabledParams false kEmptyPrefs 1000 0 none kScatterBody).output
        = none
    ∧ kEmptyPrefs.previous_version = none
    ∧ (PerformUpdateCheck kDisabledParams false kEmptyPrefs 1000 0 none kScatterBody).prefs.previous_version
        = some "0.1.0.0" := by
  refine ⟨?_, ?_, ?_, ?_⟩ <;> rfl

/-- C4 (amended): for every request with `update_disabled = true` whose
response is a valid offer, the outcome is `UpdateIgnoredPerPolicy` with
no update surfaced, and the scatter-policy preference keys
(`update_check_count`, `update_first_seen_at`) are untouched; the
composer still persists `previous_version` (set to the current
application version), as it does on every update-check request. -/
theorem C4_update_disabled_ignores_offer (params : OmahaRequestParams)
    (prefs : PrefsState) (now rand_val : Int) (body : String)
    (resp : OmahaResponse)
    (hparse : ParseResponse body = .ok resp)
    (hu : resp.update_exists = true)
    (hd : params.update_disabled = true) :
    (PerformUpdateCheck params false prefs now rand_val none body).code
        = .omahaUpdateIgnoredPerPolicy
    ∧ (PerformUpdateCheck params false prefs now rand_val none body).output = none
    ∧ (PerformUpdateCheck params false prefs now rand_val none body).prefs.update_check_count
        = prefs.update_check_count
    ∧ (PerformUpdateCheck params false prefs now rand_val none body).prefs.update_first_seen_at
        = prefs.update_first_seen_at
    ∧ (PerformUpdateCheck params false prefs now rand_val none body).prefs.previous_version
        = some params.app_version := by
  unfold PerformUpdateCheck
  simp [hparse, hu, hd]

/-- C4 witness: the amended statement at the concrete blocked-by-policy
run of `ValidUpdateBlockedByPolicyTest`. -/
theorem C4_update_disabled_witness :
    (PerformUpdateCheck kDisabledParams false kEmptyPrefs 1000 0 none kScatterBody).code
        = .omahaUpdateIgnoredPerPolicy
    ∧ (PerformUpdateCheck kDisabledParams false kEmptyPrefs 1000 0 none kScatterBody).output
        = none
    ∧ (PerformUpdateCheck kDisabledParams false kEmptyPrefs 1000 0 none kScatterBody).prefs.update_first_seen_at
        = none := by
  have h := C4_update_disabled_ignores_offer kDisabledParams kEmptyPrefs 1000 0
    kScatterBody kScatterResp parse_scatterBody rfl rfl
  exact ⟨h.1, h.2.1, h.2.2.2.1⟩


/-- C5 counterexample: in the configuration of
`ZeroMaxDaysToScatterCausesNoScattering` (wall-clock wait enabled,
counter wait enabled on `[1, 8]`, empty preferences, offer with
`MaxDaysToScatter = 0`) the outcome is `Success` with a surfaced update
and `update_check_count` is never written — yet the update-check-count
wait (the policy's next check) was enabled and, had it been consulted,
was unsatisfied; so the claim that the policy "proceeds to the next
check" is false: the next check is skipped outright. -/
theorem C5_counterexample :
    (PerformUpdateCheck kZeroScatterParams false kEmptyPrefs 1000 3 none kZeroMaxDaysBody).code
        = .success
    ∧ (PerformUpdateCheck kZeroScatterParams false kEmptyPrefs 1000 3 none kZeroMaxDaysBody).output.isSome
        = true
    ∧ (PerformUpdateCheck kZeroScatterParams false kEmptyPrefs 1000 3 none kZeroMaxDaysBody).prefs.update_check_count
        = none
    ∧ kZeroScatterParams.update_check_count_wait_enabled = true
    ∧ (IsUpdateCheckCountBasedWaitingSatisfied
          (PerformUpdateCheck kZeroScatterParams false kEmptyPrefs 1000 3 none kZeroMaxDaysBody).prefs
          3).1
        = false := by
  refine ⟨?_, ?_, ?_, ?_, ?_⟩ <;> rfl

/-- C5 (amended): a valid offer with `MaxDaysToScatter = 0` disables
scattering entirely — the offer is surfaced with `Success` and
`update_exists = true` without consulting the update-check-count wait
(the counter preference is left untouched), for every preference state
in the S4 configuration. -/
theorem C5_zero_max_days_disables_scatter (prefs : PrefsState)
    (now rand_val : Int) :
    (PerformUpdateCheck kZeroScatterParams false prefs now rand_val none kZeroMaxDaysBody).code
        = .success
    ∧ (PerformUpdateCheck kZeroScatterParams false prefs now rand_val none kZeroMaxDaysBody).output
        = some kZeroMaxDaysResp
    ∧ (PerformUpdateCheck kZeroScatterParams false prefs now rand_val none kZeroMaxDaysBody).prefs.update_check_count
        = prefs.update_check_count := by
  unfold PerformUpdateCheck ShouldDeferDownload IsWallClockBasedWaitingSatisfied
    LoadOrPersistUpdateFirstSeenAt
  cases h : prefs.update_first_seen_at with
  | none =>
    simp [parse_zeroMaxDaysBody, h, kZeroMaxDaysResp, kScatterResp,
      kZeroScatterParams, kDefaultTestParams]
  | some t =>
    simp [parse_zeroMaxDaysBody, h, kZeroMaxDaysResp, kScatterResp,
      kZeroScatterParams, kDefaultTestParams]


/-- C2: an update-check that reaches the update-check-count wait (counter
wait enabled, wall-clock wait passed — zero waiting period as in the
cited tests — and a valid offer): when `update_check_count` is absent the
injected uniform draw `rand_val` from `[1, 8]` is persisted (so the
stored value is positive) and the outcome is `UpdateDeferredPerPolicy`;
when it is `0` the offer is surfaced and the count stays `0`; when it is
a positive `k` the outcome is `UpdateDeferredPerPolicy` and the count is
not decremented (it stays `k`). -/
theorem C2_update_check_count_wait (rand_val k : Int)
    (hr1 : 1 ≤ rand_val) (hr2 : rand_val ≤ 8) (hk : 0 < k) :
    ((PerformUpdateCheck kCountWaitParams false kEmptyPrefs 42 rand_val none kScatterBody).code
        = .omahaUpdateDeferredPerPolicy
      ∧ (PerformUpdateCheck kCountWaitParams false kEmptyPrefs 42 rand_val none kScatterBody).prefs.update_check_count
        = some rand_val
      ∧ 0 < rand_val)
    ∧ ((PerformUpdateCheck kCountWaitParams false
          { kEmptyPrefs with update_check_count := some 0 } 42 rand_val none kScatterBody).code
        = .success
      ∧ (PerformUpdateCheck kCountWaitParams false
          { kEmptyPrefs with update_check_count := some 0 } 42 rand_val none kScatterBody).output
        = some kScatterResp
      ∧ (PerformUpdateCheck kCountWaitParams false
          { kEmptyPrefs with update_check_count := some 0 } 42 rand_val none kScatterBody).prefs.update_check_count
        = some 0)
    ∧ ((PerformUpdateCheck kCountWaitParams false
          { kEmptyPrefs with update_check_count := some k } 42 rand_val none kScatterBody).code
        = .omahaUpdateDeferredPerPolicy
      ∧ (PerformUpdateCheck kCountWaitParams false
          { kEmptyPrefs with update_check_count := some k } 42 rand_val none kScatterBody).output
        = none
      ∧ (PerformUpdateCheck kCountWaitParams false
          { kEmptyPrefs with update_check_count := some k } 42 rand_val none kScatterBody).prefs.update_check_count
        = some k) := by
  obtain ⟨n, rfl⟩ : ∃ n : Nat, k = (n : Int) + 1 := ⟨(k - 1).toNat, by omega⟩
  exact ⟨⟨rfl, rfl, by omega⟩, ⟨rfl, rfl, rfl⟩, ⟨rfl, rfl, rfl⟩⟩

/-- C2 witness: the three counter scenarios at the concrete draw 3 and
the concrete pre-existing count 5 of
`ExistingUpdateCheckCountCausesScattering`. -/
theorem C2_update_check_count_wait_witness :
    (PerformUpdateCheck kCountWaitParams false kEmptyPrefs 42 3 none kScatterBody).code
        = .omahaUpdateDeferredPerPolicy
    ∧ (PerformUpdateCheck kCountWaitParams false kEmptyPrefs 42 3 none kScatterBody).prefs.update_check_count
        = some 3
    ∧ (PerformUpdateCheck kCountWaitParams false
          { kEmptyPrefs with update_check_count := some 0 } 42 3 none kScatterBody).code
        = .success
    ∧ (PerformUpdateCheck kCountWaitParams false
          { kEmptyPrefs with update_check_count := some 5 } 42 3 none kScatterBody).code
        = .omahaUpdateDeferredPerPolicy
    ∧ (PerformUpdateCheck kCountWaitParams false
          { kEmptyPrefs with update_check_count := some 5 } 42 3 none kScatterBody).prefs.update_check_count
        = some 5 := by
  have h := C2_update_check_count_wait 3 5 (by decide) (by decide) (by decide)
  exact ⟨h.1.1, h.1.2.1, h.2.1.1, h.2.2.1, h.2.2.2.2⟩


/-! ## Preservation lemmas for `update_first_seen_at` -/

theorem loadOrPersist_some (prefs : PrefsState) (t now : Int)
    (ht : prefs.update_first_seen_at = some t) :
    LoadOrPersistUpdateFirstSeenAt prefs now = (t, prefs) := by
  unfold LoadOrPersistUpdateFirstSeenAt
  rw [ht]

theorem wallClock_some_snd (params : OmahaRequestParams)
    (resp : OmahaResponse) (prefs : PrefsState) (now t : Int)
    (ht : prefs.update_first_seen_at = some t) :
    (IsWallClockBasedWaitingSatisfied params resp prefs now).2 = prefs := by
  unfold IsWallClockBasedWaitingSatisfied
  rw [loadOrPersist_some prefs t now ht]

theorem countWait_first_seen (prefs : PrefsState) (rand_val : Int) :
    (IsUpdateCheckCountBasedWaitingSatisfied prefs rand_val).2.update_first_seen_at
      = prefs.update_first_seen_at := by
  unfold IsUpdateCheckCountBasedWaitingSatisfied
  cases h : prefs.update_check_count <;> simp [h]

theorem shouldDefer_some_first_seen (params : OmahaRequestParams)
    (resp : OmahaResponse) (prefs : PrefsState) (now rand_val t : Int)
    (ht : prefs.update_first_seen_at = some t) :
    (ShouldDeferDownload params resp prefs now rand_val).2.update_first_seen_at
      = some t := by
  unfold ShouldDeferDownload
  split
  · exact ht
  · rcases hw : IsWallClockBasedWaitingSatisfied params resp prefs now with ⟨res, p2⟩
    have hp2 : p2 = prefs := by
      have hsnd := wallClock_some_snd params resp prefs now t ht
      rw [hw] at hsnd
      exact hsnd
    cases res <;> simp [hp2, countWait_first_seen, ht]

/-- C3: with the wall-clock wait enabled (1-day waiting period, counter
wait disabled, offer with `MaxDaysToScatter = 7`): when
`update_first_seen_at` is absent the engine persists the current
wall-clock time (a positive value) and defers; once written the stored
value is never overwritten by any run of the engine (fully generally,
over every parameter set, preference state and body); and once the time
waited since the stored origin meets the effective wait, the offer is
surfaced with `Success` and the origin is reused unchanged. -/
theorem C3_update_first_seen_at (now t rand_val : Int) (hnow : 0 < now) :
    ((PerformUpdateCheck kFirstSeenParams false kEmptyPrefs now rand_val none kScatterBody).code
        = .omahaUpdateDeferredPerPolicy
      ∧ (PerformUpdateCheck kFirstSeenParams false kEmptyPrefs now rand_val none kScatterBody).prefs.update_first_seen_at
        = some now
      ∧ 0 < now)
    ∧ (∀ (params : OmahaRequestParams) (ping_only : Bool) (prefs : PrefsState)
          (now2 rv : Int) (fail : Option Nat) (body : String),
        prefs.update_first_seen_at = some t →
        (PerformUpdateCheck params ping_only prefs now2 rv fail body).prefs.update_first_seen_at
          = some t)
    ∧ (microsecondsPerDay ≤ now - t →
        (PerformUpdateCheck kFirstSeenParams false
            { kEmptyPrefs with update_first_seen_at := some t } now rand_val none kScatterBody).code
          = .success
        ∧ (PerformUpdateCheck kFirstSeenParams false
            { kEmptyPrefs with update_first_seen_at := some t } now rand_val none kScatterBody).output
          = some kScatterResp
        ∧ (PerformUpdateCheck kFirstSeenParams false
            { kEmptyPrefs with update_first_seen_at := some t } now rand_val none kScatterBody).prefs.update_first_seen_at
          = some t) := by
  refine ⟨⟨?_, ?_, hnow⟩, ?_, ?_⟩
  · unfold PerformUpdateCheck ShouldDeferDownload IsWallClockBasedWaitingSatisfied
      LoadOrPersistUpdateFirstSeenAt
    simp [parse_scatterBody, kFirstSeenParams, kDefaultTestParams, kScatterResp,
      kEmptyPrefs, microsecondsPerDay, min_def]
  · unfold PerformUpdateCheck ShouldDeferDownload IsWallClockBasedWaitingSatisfied
      LoadOrPersistUpdateFirstSeenAt
    simp [parse_scatterBody, kFirstSeenParams, kDefaultTestParams, kScatterResp,
      kEmptyPrefs, microsecondsPerDay, min_def]
  · intro params ping_only prefs now2 rv fail body ht
    unfold PerformUpdateCheck
    cases fail with
    | some s => cases ping_only <;> simp [ht]
    | none =>
      cases h : ParseResponse body with
      | error e => cases e <;> cases ping_only <;> simp [h, ht]
      | ok resp =>
        cases ping_only with
        | true => simp [h, ht]
        | false =>
          by_cases hu : resp.update_exists <;> by_cases hd : params.update_disabled <;>
            simp [h, hu, hd, ht] <;>
            (try (split <;> exact shouldDefer_some_first_seen _ _ _ _ _ _ rfl))
  · intro hwaited
    have hw : ¬(now - t < (86400000000 : Int)) := not_lt.mpr hwaited
    unfold PerformUpdateCheck ShouldDeferDownload IsWallClockBasedWaitingSatisfied
      LoadOrPersistUpdateFirstSeenAt
    simp [parse_scatterBody, kFirstSeenParams, kDefaultTestParams, kScatterResp,
      kEmptyPrefs, microsecondsPerDay, min_def, hw]

/-- C3 witness: the first-seen timestamp is persisted on the first call
(at time 2 days) and, with a stored origin of 1000 microseconds and more
than a day waited, the offer is surfaced and the origin is unchanged. -/
theorem C3_update_first_seen_at_witness :
    (PerformUpdateCheck kFirstSeenParams false kEmptyPrefs 172800000000 0 none kScatterBody).prefs.update_first_seen_at
        = some 172800000000
    ∧ (PerformUpdateCheck kFirstSeenParams false
          { kEmptyPrefs with update_first_seen_at := some 1000 } 172800000000 0 none kScatterBody).code
        = .success
    ∧ (PerformUpdateCheck kFirstSeenParams false
          { kEmptyPrefs with update_first_seen_at := some 1000 } 172800000000 0 none kScatterBody).prefs.update_first_seen_at
        = some 1000 := by
  have h := C3_update_first_seen_at 172800000000 1000 0 (by decide)
  have hc := h.2.2 (by decide)
  exact ⟨h.1.2.1, hc.1, hc.2.2⟩

end UpdateEngine
